import Mathlib

/-!
Shallow embedding of `src/common/src/OpenSpaceNet.cpp` (DigitalGlobe
OpenSpaceNet): the pipeline topology assembler (`OpenSpaceNet::process`),
the local/map-service image initializers, the subset region-filter
builder, the sliding-window planner (`calcWindows`), the label-filter
configuration and the progress/cancellation callbacks.

External collaborators (GDAL, the deepcore node library, coordinate
transforms) are modelled at their interface boundary: coordinate
transforms are abstract functions passed as parameters, polygons are
finite pixel sets, and node graphs are explicit node/edge lists.
-/

namespace OSN

/-- Binding an `Except.ok` feeds its value into the continuation. -/
theorem except_bind_ok {α β ε : Type} (a : α) (f : α → Except ε β) :
    (Except.ok a >>= f) = f a := rfl

/-- Binding an `Except.error` short-circuits the continuation. -/
theorem except_bind_error {α β ε : Type} (e : ε) (f : α → Except ε β) :
    ((Except.error e : Except ε α) >>= f) = Except.error e := rfl

/-- Pure into `Except` is `Except.ok`. -/
theorem except_pure {α ε : Type} (a : α) :
    (pure a : Except ε α) = Except.ok a := rfl

/-- Pixel-space integer rectangle, as `cv::Rect`. -/
structure Rect where
  x : Int
  y : Int
  width : Int
  height : Int
deriving DecidableEq, Repr

/-- OpenCV rectangle intersection (`operator&`): overlap of the two
rectangles, normalized to the zero rectangle when the overlap is empty. -/
def Rect.inter (a b : Rect) : Rect :=
  let x1 := max a.x b.x
  let y1 := max a.y b.y
  let w := min (a.x + a.width) (b.x + b.width) - x1
  let h := min (a.y + a.height) (b.y + b.height) - y1
  if w ≤ 0 ∨ h ≤ 0 then ⟨0, 0, 0, 0⟩ else ⟨x1, y1, w, h⟩

/-- Output spatial reference: either no geographic anchoring (`LOCAL`,
the default-constructed `SpatialReference`) or WGS84. -/
inductive SpatialRef
  | LOCAL
  | WGS84
deriving DecidableEq, Repr

/-- Warning from `initLocalImage` when the image has no usable CRS
(OpenSpaceNet.cpp line 303). -/
def geoMetadataWarning : String :=
  "Image has geometric metadata which cannot be converted to WGS84. Output will be in native space, and some output formats will fail."

/-- Warning from `initLocalImage` when a bbox is supplied for a CRS-less
image (OpenSpaceNet.cpp line 307). -/
def bboxConversionWarning : String :=
  "Supplying the --bbox option implicitly requests a conversion from WGS84 to pixel space however there is no conversion from WGS84 to pixel space."

/-- Warning from `initLocalImage` right before dropping the user bbox
(OpenSpaceNet.cpp line 310). -/
def bboxIgnoredWarning : String :=
  "Ignoring user-supplied bounding box"

/-- Error text of the `DG_CHECK` at OpenSpaceNet.cpp line 324. -/
def noIntersectionError : String :=
  "Input image and the provided bounding box do not intersect"

/-- Result of `OpenSpaceNet::initLocalImage`, for the state it
establishes: output spatial reference `sr_`, pixel bounding box `bbox_`,
the warnings logged, and the informational adjusted-bbox reports (values
of type `G`, geographic space). -/
structure LocalImageResult (G : Type) where
  sr : SpatialRef
  bbox : Rect
  warnings : List String
  infoMsgs : List G

/-- Embedding of `OpenSpaceNet::initLocalImage` (OpenSpaceNet.cpp lines 285-339).
`G` is the geographic-box type; `llToPixelInt` embeds
`llToPixel.transformToInt` and `pixelToLL` embeds `pixelToLL_->transform`
(external `TransformationChain` operations).  The image extent is
`imageSize`, `imageSrIsLocal` is `imageSr_.isLocal()`, and `argsBbox` is
the optional user bounding box. -/
def initLocalImage (G : Type) (imageSize : Int × Int) (imageSrIsLocal : Bool)
    (llToPixelInt : G → Rect) (pixelToLL : Rect → G) (argsBbox : Option G) :
    Except String (LocalImageResult G) :=
  let fullRect : Rect := ⟨0, 0, imageSize.1, imageSize.2⟩
  let sr := if imageSrIsLocal then SpatialRef.LOCAL else SpatialRef.WGS84
  let warnings :=
    if imageSrIsLocal then
      if argsBbox.isSome then
        [geoMetadataWarning, bboxConversionWarning, bboxIgnoredWarning]
      else
        [geoMetadataWarning]
    else []
  let ignoreArgsBbox := imageSrIsLocal && argsBbox.isSome
  match argsBbox with
  | none => .ok ⟨sr, fullRect, warnings, []⟩
  | some b =>
    if ignoreArgsBbox then
      .ok ⟨sr, fullRect, warnings, []⟩
    else
      let bbox := llToPixelInt b
      let intersect := fullRect.inter bbox
      if intersect.width ≠ 0 ∧ intersect.height ≠ 0 then
        .ok ⟨sr, intersect, warnings,
             if bbox ≠ intersect then [pixelToLL intersect] else []⟩
      else
        .error noIntersectionError

/-- Values of the `labelFilterType` node attribute. -/
inductive LabelFilterType
  | INCLUDE
  | EXCLUDE
deriving DecidableEq, Repr

/-- Configuration of the label-filter node built by `initLabelFilter`:
the node variant (`PolyLabelFilter` when `isPoly`, else
`BoxLabelFilter`), the `labels` attribute and the `labelFilterType`
attribute. -/
structure LabelFilterCfg where
  isPoly : Bool
  labels : List String
  filterType : LabelFilterType
deriving DecidableEq, Repr

/-- Embedding of `OpenSpaceNet::initLabelFilter` (OpenSpaceNet.cpp lines 535-557):
creates a poly/box label filter depending on the model category, then
configures it from `excludeLabels` if non-empty, else from
`includeLabels` if non-empty, else returns null. -/
def initLabelFilter (isSegmentation : Bool)
    (excludeLabels includeLabels : List String) : Option LabelFilterCfg :=
  if excludeLabels ≠ [] then
    some ⟨isSegmentation, excludeLabels, LabelFilterType.EXCLUDE⟩
  else if includeLabels ≠ [] then
    some ⟨isSegmentation, includeLabels, LabelFilterType.INCLUDE⟩
  else
    none

/-- Error text of the `DG_CHECK` at OpenSpaceNet.cpp line 702. -/
def windowStepMismatchError : String :=
  "Number of window sizes and window steps must match."

/-- The model aspect ratio `modelAspectRatio_` of
`OpenSpaceNet::initDetector` (OpenSpaceNet.cpp line 470): model height
over model width, as an exact rational. -/
def modelAspect (modelH modelW : Int) : ℚ := (modelH : ℚ) / (modelW : ℚ)

/-- The `roundf(ar * c)` of the source, on exact rationals: the height (or
vertical step) derived from a width `c` via the aspect ratio `ar`. -/
def derivedHeight (ar : ℚ) (c : Int) : Int := round (ar * (c : ℚ))

/-- Embedding of `OpenSpaceNet::calcWindows` (OpenSpaceNet.cpp lines 700-730): the
multi-scale window plan.  `ar` is `modelAspectRatio_`, `primarySize` and
`primaryStep` are `primaryWindowSize_` / `primaryWindowStep_` from
`initDetector`.  Returns the list of (size, step) pairs, each a pair of
(width, height) integer pairs. -/
def calcWindows (ar : ℚ) (windowSize windowStep : List Int)
    (primarySize primaryStep : Int × Int) :
    Except String (List ((Int × Int) × (Int × Int))) :=
  if ¬(windowSize.length < 2 ∨ windowStep.length < 2 ∨
        windowSize.length = windowStep.length) then
    .error windowStepMismatchError
  else if windowSize.length = windowStep.length ∧ windowStep ≠ [] then
    .ok (List.zipWith
      (fun w s => ((w, derivedHeight ar w), (s, derivedHeight ar s)))
      windowSize windowStep)
  else if 1 < windowSize.length then
    .ok (windowSize.map (fun c => ((c, derivedHeight ar c), primaryStep)))
  else if 1 < windowStep.length then
    .ok (windowStep.map (fun c => (primarySize, (c, derivedHeight ar c))))
  else
    .ok [(primarySize, primaryStep)]

/-! ### Region filter builder (`initSubsetRegionFilter`) -/

/-- A polygon (or accumulated region mask) in pixel space, as the finite
set of pixels it covers. -/
abbrev Poly := Finset (Int × Int)

/-- OGR geometry type of a filter feature, reduced to the distinction
`initSubsetRegionFilter` checks. -/
inductive GeometryType
  | POLYGON
  | OTHER
deriving DecidableEq, Repr

/-- A feature of a region-filter vector layer: its geometry type and its
geometry (in the layer space). -/
structure Feature where
  type : GeometryType
  geom : Poly

/-- A layer of a region-filter vector file: whether its spatial
reference is local, the composed inverse transformation into pixel space
(`pixelToProj.inverse()` after the optional from-WGS84 append — an
external `TransformationChain`, abstracted as a set map), and its
features. -/
structure Layer where
  isLocal : Bool
  transformPx : Poly → Poly
  features : List Feature

/-- A region-filter vector file: its path and the layers of its
`FileFeatureSet`. -/
structure FilterFile where
  name : String
  layers : List Layer

/-- First `DG_CHECK` message at OpenSpaceNet.cpp line 421 (raised when
the layer has a spatial reference but the image does not). -/
def crsMismatchLayerAnchored (fname : String) : String :=
  "Error applying region filter: " ++ fname ++
    " does not have a spatial reference, but the input image does"

/-- Second `DG_CHECK` message at OpenSpaceNet.cpp line 422 (raised when
the image has a spatial reference but the layer does not). -/
def crsMismatchImageAnchored (fname : String) : String :=
  "Error applying region filter: Input image does not have a spatial reference, but the " ++
    fname ++ " does"

/-- Error for a non-polygon feature (OpenSpaceNet.cpp line 432). -/
def nonPolygonError (fname : String) : String :=
  "Filter from file " ++ fname ++ " contains a geometry that is not a POLYGON"

/-- Error for an unknown action string (OpenSpaceNet.cpp line 450). -/
def unknownActionError (action : String) : String :=
  "Unknown filtering action " ++ action

/-- CRS reconciliation for one layer (OpenSpaceNet.cpp lines 420-425):
when the layer anchoring differs from the image anchoring, one of the
two `DG_CHECK`s fires, naming the file. -/
def checkLayerCrs (imageLocal : Bool) (fname : String) (layerLocal : Bool) :
    Except String Unit :=
  if layerLocal ≠ imageLocal then
    if ¬layerLocal then .error (crsMismatchLayerAnchored fname)
    else .error (crsMismatchImageAnchored fname)
  else .ok ()

/-- Transform the features of one layer into pixel-space polygons
(OpenSpaceNet.cpp lines 430-436), after the CRS check. -/
def layerPolys (imageLocal : Bool) (fname : String) (l : Layer) :
    Except String (List Poly) := do
  _ ← checkLayerCrs imageLocal fname l.isLocal
  l.features.mapM (fun f =>
    if f.type ≠ GeometryType.POLYGON then .error (nonPolygonError fname)
    else .ok (l.transformPx f.geom))

/-- Collect the transformed polygons of all layers of all files of one
filter action (OpenSpaceNet.cpp lines 414-438). -/
def actionPolys (imageLocal : Bool) (files : List FilterFile) :
    Except String (List Poly) := do
  let ps ← files.mapM (fun file => do
    let ls ← file.layers.mapM (layerPolys imageLocal file.name)
    pure ls.flatten)
  pure ps.flatten

/-- Embedding of `MaskedRegionFilter::add`: union a polygon list into the mask. -/
def filterAdd (st : Poly) (polys : List Poly) : Poly :=
  polys.foldl (· ∪ ·) st

/-- Embedding of `MaskedRegionFilter::subtract`: subtract a polygon list from the
mask. -/
def filterSubtract (st : Poly) (polys : List Poly) : Poly :=
  polys.foldl (· \ ·) st

/-- The action loop of `initSubsetRegionFilter` (OpenSpaceNet.cpp lines
411-452): fold the ordered (action, files) list over the filter state,
tracking the `firstAction` flag.  `fullRect` is the polygon of
`cv::Rect(0, 0, bbox_.width, bbox_.height)`. -/
def applyFilterActions (imageLocal : Bool) (fullRect : Poly)
    (st : Poly) (firstAction : Bool) :
    List (String × List FilterFile) → Except String Poly
  | [] => .ok st
  | (action, files) :: rest => do
    let filterPolys ← actionPolys imageLocal files
    if action = "include" then
      applyFilterActions imageLocal fullRect (filterAdd st filterPolys) false rest
    else if action = "exclude" then
      let st := if firstAction then filterAdd st [fullRect] else st
      applyFilterActions imageLocal fullRect (filterSubtract st filterPolys) false rest
    else
      .error (unknownActionError action)

/-- Embedding of `OpenSpaceNet::initSubsetRegionFilter` (OpenSpaceNet.cpp lines
403-462): `none` when no filter definition was supplied, otherwise the
composite mask built from the empty seed state. -/
def initSubsetRegionFilter (imageLocal : Bool) (fullRect : Poly)
    (filterDefinition : List (String × List FilterFile)) :
    Except String (Option Poly) :=
  if filterDefinition.isEmpty then
    pure none
  else do
    let mask ← applyFilterActions imageLocal fullRect ∅ true filterDefinition
    pure (some mask)

/-! ### Map-service image initializer (`initMapServiceImage`) -/

/-- The input source kind of `OpenSpaceNetArgs`; `LOCAL` is a local
image, the four others are remote map services (`source > LOCAL` in the
code). -/
inductive Source
  | LOCAL
  | DGCS
  | EVWHS
  | MAPS_API
  | TILE_JSON
deriving DecidableEq, Repr

/-- Whether a source is a remote map service (`args_.source >
Source::LOCAL`). -/
def Source.isRemote : Source → Bool
  | .LOCAL => false
  | _ => true

/-- Error text of the `DG_CHECK` at OpenSpaceNet.cpp line 343. -/
def bboxRequiredError : String := "Bounding box must be specified"

/-- The connection log line of the `switch` in `initMapServiceImage`
(OpenSpaceNet.cpp lines 348-370). -/
def connectMessage : Source → String
  | .MAPS_API => "Connecting to MapsAPI..."
  | .EVWHS => "Connecting to EVWHS..."
  | .TILE_JSON => "Connecting to TileJSON..."
  | _ => "Connecting to DGCS..."

/-- Embedding of `OpenSpaceNet::initMapServiceImage` (OpenSpaceNet.cpp lines
341-401), modelled as the ordered trace of client interactions it
performs, paired with success or failure.  The `DG_CHECK` on the
bounding box is the first statement of the function, so on a missing
bounding box the trace is empty: no client is created and no connection
is attempted.  The work after `client->connect()` (tile configuration,
transforms, block-source setup) uses only the external client and is
recorded as trace steps. -/
def initMapServiceImage (G : Type) (source : Source) (argsBbox : Option G) :
    List String × Except String Unit :=
  match argsBbox with
  | none => ([], .error bboxRequiredError)
  | some _ =>
    ([connectMessage source, "client.connect", "client configuration",
      "client.imageFromArea", "blockSource"], .ok ())

/-! ### Pipeline assembly (`OpenSpaceNet::process`) -/

/-- Variants of the processing nodes created by `process` and its `init`
helpers, as the concrete deepcore node classes. -/
inductive NodeKind
  | gdalBlockSource
  | mapServiceBlockSource
  | removeBandByColorInterp
  | blockCache
  | subsetWithBorder
  | subsetRegionFilter
  | slidingWindow
  | polyDetector
  | boxDetector
  | polyLabelFilter
  | boxLabelFilter
  | polyNonMaxSuppression
  | boxNonMaxSuppression
  | predictionBoxToPoly
  | predictionToFeature
  | wfsFeatureFieldExtractor
  | fileFeatureSink
deriving DecidableEq, Repr

/-- A wired port connection: `dst->input(dstPort) =
src->output(srcPort)`. -/
structure Edge where
  src : String
  srcPort : String
  dst : String
  dstPort : String
deriving DecidableEq, Repr

/-- The configuration bits of `OpenSpaceNetArgs` (and derived state)
that decide the graph shape in `process`. -/
structure PipelineCfg where
  sourceIsLocal : Bool
  isSegmentation : Bool
  nms : Bool
  haveAlpha : Bool
  hasRegionFilter : Bool
  excludeLabels : List String
  includeLabels : List String
  hasWfs : Bool
deriving DecidableEq, Repr

/-- Whether `process` holds a non-null label filter: `initLabelFilter`
returned a node. -/
def hasLabelFilter (cfg : PipelineCfg) : Bool :=
  (initLabelFilter cfg.isSegmentation cfg.excludeLabels cfg.includeLabels).isSome

/-- The nodes created by `process` (OpenSpaceNet.cpp lines 95-223), as
(name, class) pairs in creation order.  Conditional nodes: the alpha
remover (line 139), the subset region filter (line 134, non-null iff a
filter definition exists), the label filter (line 151), the NMS node
(lines 153-161, poly/box by category), the box-to-poly converter (lines
192-196, detection only) and the WFS field extractor (line 164). -/
def processNodes (cfg : PipelineCfg) : List (String × NodeKind) :=
  [("blockSource",
    if cfg.sourceIsLocal then NodeKind.gdalBlockSource
    else NodeKind.mapServiceBlockSource),
   ("blockCache", NodeKind.blockCache),
   ("detector",
    if cfg.isSegmentation then NodeKind.polyDetector else NodeKind.boxDetector),
   ("border", NodeKind.subsetWithBorder)] ++
  (if cfg.hasRegionFilter then [("regionFilter", NodeKind.subsetRegionFilter)] else []) ++
  [("slidingWindow", NodeKind.slidingWindow)] ++
  (if cfg.haveAlpha then [("removeAlpha", NodeKind.removeBandByColorInterp)] else []) ++
  (if hasLabelFilter cfg then
    [("labelFilter",
      if cfg.isSegmentation then NodeKind.polyLabelFilter else NodeKind.boxLabelFilter)]
   else []) ++
  (if cfg.nms then
    [("nms",
      if cfg.isSegmentation then NodeKind.polyNonMaxSuppression
      else NodeKind.boxNonMaxSuppression)]
   else []) ++
  [("predToFeature", NodeKind.predictionToFeature)] ++
  (if cfg.hasWfs then [("fieldExtractor", NodeKind.wfsFeatureFieldExtractor)] else []) ++
  [("featureSink", NodeKind.fileFeatureSink)] ++
  (if ¬cfg.isSegmentation then [("predictionToPoly", NodeKind.predictionBoxToPoly)] else [])

/-- The port wiring of `process` (OpenSpaceNet.cpp lines 167-223), in
source order: source/alpha/cache (167-172), cache→border (174),
border→[regionFilter]→slidingWindow (175-180), slidingWindow→detector
(182), detector→[labelFilter]→[nms] (183-190), the box-to-poly input of
the feature converter (192-196), the predictions feed of the final
stage (198-216) and the feature chain to the sink (218-223). -/
def processEdges (cfg : PipelineCfg) : List Edge :=
  (if cfg.haveAlpha then
    [⟨"blockSource", "blocks", "removeAlpha", "blocks"⟩,
     ⟨"removeAlpha", "blocks", "blockCache", "blocks"⟩]
   else
    [⟨"blockSource", "blocks", "blockCache", "blocks"⟩]) ++
  [⟨"blockCache", "subsets", "border", "subsets"⟩] ++
  (if cfg.hasRegionFilter then
    [⟨"border", "subsets", "regionFilter", "subsets"⟩,
     ⟨"regionFilter", "subsets", "slidingWindow", "subsets"⟩]
   else
    [⟨"border", "subsets", "slidingWindow", "subsets"⟩]) ++
  [⟨"slidingWindow", "subsets", "detector", "subsets"⟩] ++
  (if hasLabelFilter cfg then
    [⟨"detector", "predictions", "labelFilter", "predictions"⟩] ++
    (if cfg.nms then [⟨"labelFilter", "predictions", "nms", "predictions"⟩] else [])
   else if cfg.nms then
    [⟨"detector", "predictions", "nms", "predictions"⟩]
   else []) ++
  (if ¬cfg.isSegmentation then
    [⟨"predictionToPoly", "predictions", "predToFeature", "predictions"⟩]
   else []) ++
  (if cfg.nms then
    (if cfg.isSegmentation then
      [⟨"nms", "predictions", "predToFeature", "predictions"⟩]
     else
      [⟨"nms", "predictions", "predictionToPoly", "predictions"⟩])
   else if hasLabelFilter cfg then
    (if cfg.isSegmentation then
      [⟨"labelFilter", "predictions", "predToFeature", "predictions"⟩]
     else
      [⟨"labelFilter", "predictions", "predictionToPoly", "predictions"⟩])
   else
    (if cfg.isSegmentation then
      [⟨"detector", "predictions", "predToFeature", "predictions"⟩]
     else
      [⟨"detector", "predictions", "predictionToPoly", "predictions"⟩])) ++
  (if cfg.hasWfs then
    [⟨"predToFeature", "features", "fieldExtractor", "features"⟩,
     ⟨"fieldExtractor", "features", "featureSink", "features"⟩]
   else
    [⟨"predToFeature", "features", "featureSink", "features"⟩])

/-! ### Execution monitor callbacks (`process`, interactive mode) -/

/-- A metric-change callback event of the interactive mode: which metric
changed and its new value (OpenSpaceNet.cpp lines 232-258). -/
inductive MetricEvent
  | total (v : Int)
  | forwarded (v : Int)
  | processed (v : Int)
deriving DecidableEq, Repr

/-- Monitor-side observable state: how many `featureSink->cancel()`
calls were issued and the progress values pushed to the
`ProgressDisplayHelper`. -/
structure MonitorState where
  cancelRequests : Nat
  readingMax : Int
  detectingMax : Int
  readingCur : Int
  detectingCur : Int
deriving DecidableEq, Repr

/-- One callback invocation (OpenSpaceNet.cpp lines 232-258): the first
component is `pd_->isRunning()` as observed by the callback; when the
display is stopped the callback cancels the sink, otherwise it updates
the corresponding progress value. -/
def handleMetricEvent (st : MonitorState) (e : Bool × MetricEvent) : MonitorState :=
  if ¬e.1 then
    { st with cancelRequests := st.cancelRequests + 1 }
  else
    match e.2 with
    | .total v => { st with readingMax := v, detectingMax := v }
    | .forwarded v => { st with readingCur := v }
    | .processed v => { st with detectingCur := v }

/-- Run the monitor over an ordered trace of callback invocations. -/
def runMonitor (st : MonitorState) (trace : List (Bool × MetricEvent)) :
    MonitorState :=
  trace.foldl handleMetricEvent st

/-- The progress-value projection of the monitor state. -/
def progressOf (st : MonitorState) : Int × Int × Int × Int :=
  (st.readingMax, st.detectingMax, st.readingCur, st.detectingCur)

/-! ### Claims -/

/-- Claim C10: when both the exclude-label list and the include-label
list are non-empty, the label filter is configured in EXCLUDE mode from
the exclude list only, and the include list has no effect; a label
filter is created iff at least one of the two lists is non-empty. -/
theorem c10_label_filter_precedence (seg : Bool) (ex inc : List String) :
    (ex ≠ [] → inc ≠ [] →
      initLabelFilter seg ex inc = some ⟨seg, ex, LabelFilterType.EXCLUDE⟩ ∧
      ∀ inc2, initLabelFilter seg ex inc2 = initLabelFilter seg ex inc) ∧
    ((initLabelFilter seg ex inc).isSome ↔ (ex ≠ [] ∨ inc ≠ [])) := by
  constructor
  · intro hex _
    simp [initLabelFilter, hex]
  · by_cases hex : ex = [] <;> by_cases hinc : inc = [] <;>
      simp [initLabelFilter, hex, hinc]

/-- Witness for C10 at concrete label lists. -/
theorem c10_label_filter_precedence_witness :
    initLabelFilter true ["car"] ["tree"] =
      some ⟨true, ["car"], LabelFilterType.EXCLUDE⟩ ∧
    (initLabelFilter true ["car"] ["tree"]).isSome := by
  have h := c10_label_filter_precedence true ["car"] ["tree"]
  exact ⟨(h.1 (by simp) (by simp)).1, h.2.mpr (Or.inl (by simp))⟩

/-- Claim C5: for equal-length non-empty window-size and window-step
lists, `calcWindows` zips them element-wise in input order, each pair
carrying heights `round(aspect * width)` and `round(aspect * step)`,
where the aspect ratio is model height over model width. -/
theorem c5_window_planner_zip (modelH modelW : Int) (ws st : List Int)
    (ps pst : Int × Int) (hlen : ws.length = st.length) (hne : st ≠ []) :
    calcWindows (modelAspect modelH modelW) ws st ps pst =
      .ok (List.zipWith (fun w s =>
        ((w, derivedHeight (modelAspect modelH modelW) w),
         (s, derivedHeight (modelAspect modelH modelW) s))) ws st) := by
  unfold calcWindows
  simp [hlen, hne]

/-- Witness for C5: a square model (aspect ratio 1), sizes [10, 20],
steps [3, 4]. -/
theorem c5_window_planner_zip_witness :
    calcWindows (modelAspect 300 300) [10, 20] [3, 4] (0, 0) (0, 0) =
      .ok [((10, 10), (3, 3)), ((20, 20), (4, 4))] := by
  have h := c5_window_planner_zip 300 300 [10, 20] [3, 4] (0, 0) (0, 0)
    (by decide) (by decide)
  have ha : modelAspect 300 300 = 1 := by norm_num [modelAspect]
  rw [h]
  simp [ha, derivedHeight, round_intCast]

/-- Claim C6: `calcWindows` raises the count-mismatch error exactly when
the window-size and window-step lists both have more than one entry and
their lengths differ. -/
theorem c6_window_step_mismatch (ar : ℚ) (ws st : List Int)
    (ps pst : Int × Int) :
    calcWindows ar ws st ps pst = .error windowStepMismatchError ↔
      (1 < ws.length ∧ 1 < st.length ∧ ws.length ≠ st.length) := by
  unfold calcWindows
  split_ifs with h1 h2 h3 h4 <;>
    first
      | exact iff_of_true rfl (by omega)
      | exact iff_of_false (by simp) (by omega)

/-- Witness for C6: two sizes against three steps fails. -/
theorem c6_window_step_mismatch_witness :
    calcWindows (1 / 2 : ℚ) [1, 2] [1, 2, 3] (0, 0) (0, 0) =
      .error windowStepMismatchError :=
  (c6_window_step_mismatch (1 / 2 : ℚ) [1, 2] [1, 2, 3] (0, 0) (0, 0)).mpr
    (by simp)

/-- Claim C4: for a local image whose spatial reference is LOCAL, the
output spatial reference stays LOCAL, a supplied bounding box is warned
about and ignored (no failure), and the run proceeds with the full
image rectangle. -/
theorem c4_local_image_degraded_mode (G : Type) (sz : Int × Int)
    (f : G → Rect) (g : Rect → G) (bb : Option G) :
    ∃ r, initLocalImage G sz true f g bb = .ok r ∧
      r.sr = SpatialRef.LOCAL ∧
      r.bbox = ⟨0, 0, sz.1, sz.2⟩ ∧
      (bb.isSome = true → bboxIgnoredWarning ∈ r.warnings) := by
  cases bb <;> simp [initLocalImage]

/-- Witness for C4 at a concrete CRS-less image with a supplied bbox. -/
theorem c4_local_image_degraded_mode_witness :
    ∃ r, initLocalImage Rect (5, 7) true id id (some ⟨1, 1, 2, 2⟩) = .ok r ∧
      r.sr = SpatialRef.LOCAL ∧
      r.bbox = ⟨0, 0, 5, 7⟩ ∧
      bboxIgnoredWarning ∈ r.warnings := by
  obtain ⟨r, h1, h2, h3, h4⟩ :=
    c4_local_image_degraded_mode Rect (5, 7) id id (some ⟨1, 1, 2, 2⟩)
  exact ⟨r, h1, h2, h3, h4 rfl⟩

/-- Claim C3: for a CRS-anchored local image and a user bounding box,
the box is converted to integer pixel space and intersected with the
full image rectangle; a zero-width or zero-height intersection aborts
with the no-intersection error, otherwise processing continues on the
intersection, reporting the intersection mapped back through
`pixelToLL` exactly when it differs from the requested pixel box. -/
theorem c3_bbox_reconciliation (G : Type) (sz : Int × Int)
    (f : G → Rect) (g : Rect → G) (b : G) :
    ((Rect.inter ⟨0, 0, sz.1, sz.2⟩ (f b)).width = 0 ∨
       (Rect.inter ⟨0, 0, sz.1, sz.2⟩ (f b)).height = 0 →
      initLocalImage G sz false f g (some b) = .error noIntersectionError) ∧
    ((Rect.inter ⟨0, 0, sz.1, sz.2⟩ (f b)).width ≠ 0 →
     (Rect.inter ⟨0, 0, sz.1, sz.2⟩ (f b)).height ≠ 0 →
      ∃ r, initLocalImage G sz false f g (some b) = .ok r ∧
        r.sr = SpatialRef.WGS84 ∧
        r.bbox = Rect.inter ⟨0, 0, sz.1, sz.2⟩ (f b) ∧
        (f b ≠ Rect.inter ⟨0, 0, sz.1, sz.2⟩ (f b) →
          r.infoMsgs = [g (Rect.inter ⟨0, 0, sz.1, sz.2⟩ (f b))]) ∧
        (f b = Rect.inter ⟨0, 0, sz.1, sz.2⟩ (f b) → r.infoMsgs = [])) := by
  constructor
  · intro h
    have hne : ¬((Rect.inter ⟨0, 0, sz.1, sz.2⟩ (f b)).width ≠ 0 ∧
        (Rect.inter ⟨0, 0, sz.1, sz.2⟩ (f b)).height ≠ 0) := by tauto
    simp [initLocalImage, hne]
  · intro hw hh
    refine ⟨⟨SpatialRef.WGS84, Rect.inter ⟨0, 0, sz.1, sz.2⟩ (f b), [],
      if f b ≠ Rect.inter ⟨0, 0, sz.1, sz.2⟩ (f b) then
        [g (Rect.inter ⟨0, 0, sz.1, sz.2⟩ (f b))] else []⟩, ?_, rfl, rfl, ?_, ?_⟩
    · simp [initLocalImage, hw, hh]
    · intro hne
      rw [if_pos hne]
    · intro heq
      rw [if_neg (not_not_intro heq)]

/-- Witness for C3: a 10x10 image with a straddling pixel box
[-5,-5,20,20]; the intersection is [0,0,10,10] and is reported. -/
theorem c3_bbox_reconciliation_witness :
    ∃ r, initLocalImage Rect (10, 10) false id id (some ⟨-5, -5, 20, 20⟩) = .ok r ∧
      r.sr = SpatialRef.WGS84 ∧
      r.bbox = ⟨0, 0, 10, 10⟩ ∧
      r.infoMsgs = [(⟨0, 0, 10, 10⟩ : Rect)] := by
  have hi : Rect.inter ⟨0, 0, 10, 10⟩ (id (⟨-5, -5, 20, 20⟩ : Rect)) =
      ⟨0, 0, 10, 10⟩ := by decide
  obtain ⟨r, h1, h2, h3, h4, -⟩ :=
    (c3_bbox_reconciliation Rect (10, 10) id id ⟨-5, -5, 20, 20⟩).2
      (by rw [hi]; decide) (by rw [hi]; decide)
  refine ⟨r, h1, h2, ?_, ?_⟩
  · rw [h3, hi]
  · rw [h4 (by rw [hi]; decide), hi]
    exact rfl

/-- Claim C9: a remote map-service run without a bounding box fails with
the bounding-box error before any client connection is attempted (empty
interaction trace), while a local image run accepts a missing bounding
box in both the CRS-anchored and the LOCAL case. -/
theorem c9_map_service_requires_bbox (G : Type) (src : Source)
    (_hsrc : src.isRemote = true) :
    initMapServiceImage G src none = ([], .error bboxRequiredError) ∧
    (∀ (sz : Int × Int) (f : G → Rect) (g : Rect → G) (loc : Bool),
      ∃ r, initLocalImage G sz loc f g none = .ok r) := by
  refine ⟨rfl, fun sz f g loc => ?_⟩
  cases loc <;> simp [initLocalImage]

/-- Witness for C9 at the DGCS source. -/
theorem c9_map_service_requires_bbox_witness :
    initMapServiceImage Unit Source.DGCS none = ([], .error bboxRequiredError) :=
  (c9_map_service_requires_bbox Unit Source.DGCS (by decide)).1

/-- Claim C1: graph shape in two scenarios.  Segmentation with NMS and
no label filter: a poly-NMS node exists, its predictions input is wired
straight from the detector, and no box-to-poly node exists.  Detection
without NMS and with a label filter: the graph wires
detector→labelFilter→predictionToPoly→predToFeature and has no NMS
node. -/
theorem c1_pipeline_variants (cfg : PipelineCfg) :
    (cfg.isSegmentation = true → cfg.nms = true →
     cfg.excludeLabels = [] → cfg.includeLabels = [] →
      ("nms", NodeKind.polyNonMaxSuppression) ∈ processNodes cfg ∧
      Edge.mk "detector" "predictions" "nms" "predictions" ∈ processEdges cfg ∧
      (∀ k, ("predictionToPoly", k) ∉ processNodes cfg)) ∧
    (cfg.isSegmentation = false → cfg.nms = false →
     hasLabelFilter cfg = true →
      Edge.mk "detector" "predictions" "labelFilter" "predictions" ∈ processEdges cfg ∧
      Edge.mk "labelFilter" "predictions" "predictionToPoly" "predictions" ∈ processEdges cfg ∧
      Edge.mk "predictionToPoly" "predictions" "predToFeature" "predictions" ∈ processEdges cfg ∧
      (∀ k, ("nms", k) ∉ processNodes cfg)) := by
  obtain ⟨sl, seg, nms, ha, rf, ex, inc, wfs⟩ := cfg
  constructor
  · intro hseg hnms hex hinc
    simp only at hseg hnms hex hinc
    subst hseg hnms hex hinc
    have hlf : hasLabelFilter ⟨sl, true, true, ha, rf, [], [], wfs⟩ = false := by
      simp [hasLabelFilter, initLabelFilter]
    cases sl <;> cases ha <;> cases rf <;> cases wfs <;>
      simp [processNodes, processEdges, hlf]
  · intro hseg hnms hlf
    simp only at hseg hnms
    subst hseg hnms
    cases sl <;> cases ha <;> cases rf <;> cases wfs <;>
      simp [processNodes, processEdges, hlf]

/-- Witness for C1: both scenarios at concrete configurations. -/
theorem c1_pipeline_variants_witness :
    (("nms", NodeKind.polyNonMaxSuppression) ∈
        processNodes ⟨true, true, true, false, false, [], [], false⟩ ∧
      Edge.mk "detector" "predictions" "nms" "predictions" ∈
        processEdges ⟨true, true, true, false, false, [], [], false⟩) ∧
    (Edge.mk "labelFilter" "predictions" "predictionToPoly" "predictions" ∈
        processEdges ⟨true, false, false, false, false, ["car"], [], false⟩ ∧
      (∀ k, ("nms", k) ∉
        processNodes ⟨true, false, false, false, false, ["car"], [], false⟩)) := by
  have h1 := (c1_pipeline_variants ⟨true, true, true, false, false, [], [], false⟩).1
    rfl rfl rfl rfl
  have h2 := (c1_pipeline_variants ⟨true, false, false, false, false, ["car"], [], false⟩).2
    rfl rfl (by simp [hasLabelFilter, initLabelFilter])
  exact ⟨⟨h1.1, h1.2.1⟩, ⟨h2.2.1, h2.2.2.2⟩⟩

/-- A filter file holding one layer whose anchoring matches the image,
with an identity pixel transform and one polygon feature. -/
def singlePolyFile (loc : Bool) (p : Poly) : FilterFile :=
  ⟨"filter.shp", [⟨loc, id, [⟨GeometryType.POLYGON, p⟩]⟩]⟩

/-- Collecting the polygons of a single matching-CRS one-polygon file
yields that polygon. -/
theorem actionPolys_singlePolyFile (loc : Bool) (p : Poly) :
    actionPolys loc [singlePolyFile loc p] = .ok [p] := by
  simp [actionPolys, singlePolyFile, layerPolys, checkLayerCrs, List.mapM,
    List.mapM.loop, except_bind_ok, except_bind_error, except_pure]

/-- Claim C2: a first "exclude" action unions the full image rectangle
into the (empty) filter before subtracting its polygons, so
`[(exclude, polyA)]` yields `fullRect \ polyA`, while
`[(include, polyB), (exclude, polyA)]` yields `polyB \ polyA` with no
automatic inclusion of the full extent. -/
theorem c2_region_filter_exclude_first (imageLocal : Bool)
    (fullRect polyA polyB : Poly) :
    (∀ (rest : List (String × List FilterFile)) (st : Poly),
      applyFilterActions imageLocal fullRect st true
          (("exclude", [singlePolyFile imageLocal polyA]) :: rest) =
        applyFilterActions imageLocal fullRect
          (filterSubtract (filterAdd st [fullRect]) [polyA]) false rest) ∧
    initSubsetRegionFilter imageLocal fullRect
        [("exclude", [singlePolyFile imageLocal polyA])] =
      .ok (some (fullRect \ polyA)) ∧
    initSubsetRegionFilter imageLocal fullRect
        [("include", [singlePolyFile imageLocal polyB]),
         ("exclude", [singlePolyFile imageLocal polyA])] =
      .ok (some (polyB \ polyA)) := by
  refine ⟨fun rest st => ?_, ?_, ?_⟩
  · simp [applyFilterActions, actionPolys_singlePolyFile, except_bind_ok]
  · simp [initSubsetRegionFilter, applyFilterActions, actionPolys_singlePolyFile,
      filterAdd, filterSubtract, except_bind_ok, except_pure, List.foldl]
  · simp [initSubsetRegionFilter, applyFilterActions, actionPolys_singlePolyFile,
      filterAdd, filterSubtract, except_bind_ok, except_pure, List.foldl,
      Finset.empty_union]

/-- Witness for C2 at concrete pixel sets. -/
theorem c2_region_filter_exclude_first_witness :
    initSubsetRegionFilter true {(0, 0), (1, 0)}
        [("exclude", [singlePolyFile true {(1, 0)}])] =
      .ok (some {(0, 0)}) ∧
    initSubsetRegionFilter true {(0, 0), (1, 0)}
        [("include", [singlePolyFile true {(0, 0), (1, 0)}]),
         ("exclude", [singlePolyFile true {(1, 0)}])] =
      .ok (some {(0, 0)}) := by
  have h := c2_region_filter_exclude_first true {(0, 0), (1, 0)} {(1, 0)}
    {(0, 0), (1, 0)}
  refine ⟨?_, ?_⟩
  · rw [h.2.1]
    congr 1
  · rw [h.2.2]
    congr 1

/-- Claim C7: a region-filter layer whose CRS anchoring differs from the
image make the builder fail, in both directions of the mismatch, with
an error message naming the offending file. -/
theorem c7_region_filter_crs_mismatch (imageLocal layerLocal : Bool)
    (action fname : String) (tf : Poly → Poly) (fs : List Feature)
    (fullRect : Poly) (rest : List (String × List FilterFile))
    (h : layerLocal ≠ imageLocal) :
    ∃ pre suf, initSubsetRegionFilter imageLocal fullRect
        ((action, [⟨fname, [⟨layerLocal, tf, fs⟩]⟩]) :: rest) =
      .error (pre ++ fname ++ suf) := by
  cases layerLocal <;> cases imageLocal
  · exact absurd rfl h
  · refine ⟨"Error applying region filter: ",
      " does not have a spatial reference, but the input image does", ?_⟩
    simp [initSubsetRegionFilter, applyFilterActions, actionPolys, layerPolys,
      checkLayerCrs, crsMismatchLayerAnchored, List.mapM, List.mapM.loop,
      except_bind_ok, except_bind_error, except_pure]
  · refine ⟨"Error applying region filter: Input image does not have a spatial reference, but the ",
      " does", ?_⟩
    simp [initSubsetRegionFilter, applyFilterActions, actionPolys, layerPolys,
      checkLayerCrs, crsMismatchImageAnchored, List.mapM, List.mapM.loop,
      except_bind_ok, except_bind_error, except_pure]
  · exact absurd rfl h

/-- Witness for C7: a CRS-anchored layer against a LOCAL image. -/
theorem c7_region_filter_crs_mismatch_witness :
    ∃ pre suf, initSubsetRegionFilter true ∅
        [("include", [⟨"regions.shp", [⟨false, id, []⟩]⟩])] =
      .error (pre ++ "regions.shp" ++ suf) :=
  c7_region_filter_crs_mismatch true false "include" "regions.shp" id [] ∅ []
    (by decide)

/-- Monitor progress depends only on the progress components of the
starting state, never on the cancellation count. -/
theorem runMonitor_progress_congr (tr : List (Bool × MetricEvent)) :
    ∀ st1 st2, progressOf st1 = progressOf st2 →
      progressOf (runMonitor st1 tr) = progressOf (runMonitor st2 tr) := by
  induction tr with
  | nil => intro st1 st2 h; simpa [runMonitor] using h
  | cons e rest ih =>
    intro st1 st2 h
    have hstep : progressOf (handleMetricEvent st1 e) =
        progressOf (handleMetricEvent st2 e) := by
      obtain ⟨b, ev⟩ := e
      simp only [progressOf, Prod.mk.injEq] at h
      cases b
      · simpa [handleMetricEvent, progressOf] using h
      · cases ev <;> simp_all [handleMetricEvent, progressOf]
    simpa [runMonitor] using ih _ _ hstep

/-- Counterexample to C8 as stated: with the display already stopped,
two subsequent metric callbacks each issue a cancellation, so the sink
receives two cancellation requests, not exactly one. -/
theorem c8_counterexample_two_cancels :
    (∀ e ∈ [((false, MetricEvent.forwarded 1) : Bool × MetricEvent),
            (false, MetricEvent.processed 2)], e.1 = false) ∧
    ¬((runMonitor ⟨0, 0, 0, 0, 0⟩
        [(false, MetricEvent.forwarded 1),
         (false, MetricEvent.processed 2)]).cancelRequests = 1) := by
  decide

/-- Claim C8 amended: each metric callback that observes the stopped
display issues one cancellation request to the sink (so at least one,
and exactly one per stopped callback), and stopped callbacks push no
further progress updates: the progress values are those of the running
callbacks alone. -/
theorem c8_cancellation_per_stopped_callback (st : MonitorState)
    (tr : List (Bool × MetricEvent)) :
    (runMonitor st tr).cancelRequests =
      st.cancelRequests + tr.countP (fun e => !e.1) ∧
    progressOf (runMonitor st tr) =
      progressOf (runMonitor st (tr.filter (fun e => e.1))) ∧
    ((∃ e ∈ tr, e.1 = false) →
      st.cancelRequests + 1 ≤ (runMonitor st tr).cancelRequests) := by
  have hcount : ∀ (l : List (Bool × MetricEvent)) (s : MonitorState),
      (runMonitor s l).cancelRequests =
        s.cancelRequests + l.countP (fun e => !e.1) := by
    intro l
    induction l with
    | nil => intro s; simp [runMonitor]
    | cons e rest ih =>
      intro s
      rw [runMonitor, List.foldl_cons]
      have : List.foldl handleMetricEvent (handleMetricEvent s e) rest =
          runMonitor (handleMetricEvent s e) rest := rfl
      rw [this, ih]
      obtain ⟨b, ev⟩ := e
      cases b
      · simp [handleMetricEvent, List.countP_cons]
        omega
      · cases ev <;> simp [handleMetricEvent, List.countP_cons]
  have hprog : ∀ (l : List (Bool × MetricEvent)) (s : MonitorState),
      progressOf (runMonitor s l) =
        progressOf (runMonitor s (l.filter (fun e => e.1))) := by
    intro l
    induction l with
    | nil => intro s; rfl
    | cons e rest ih =>
      intro s
      obtain ⟨b, ev⟩ := e
      cases b
      · have hdrop : (((false, ev) :: rest).filter (fun e => e.1)) =
            rest.filter (fun e => e.1) := by simp
        rw [hdrop, runMonitor, List.foldl_cons]
        have hrw : List.foldl handleMetricEvent
            (handleMetricEvent s (false, ev)) rest =
            runMonitor (handleMetricEvent s (false, ev)) rest := rfl
        rw [hrw]
        calc progressOf (runMonitor (handleMetricEvent s (false, ev)) rest)
            = progressOf (runMonitor s rest) :=
              runMonitor_progress_congr rest _ _
                (by simp [handleMetricEvent, progressOf])
          _ = progressOf (runMonitor s (rest.filter (fun e => e.1))) := ih s
      · have hkeep : (((true, ev) :: rest).filter (fun e => e.1)) =
            (true, ev) :: rest.filter (fun e => e.1) := by simp
        rw [hkeep, runMonitor, List.foldl_cons, runMonitor, List.foldl_cons]
        exact ih (handleMetricEvent s (true, ev))
  refine ⟨hcount tr st, hprog tr st, fun hstop => ?_⟩
  rw [hcount tr st]
  obtain ⟨e, hmem, he⟩ := hstop
  have : 0 < tr.countP (fun e => !e.1) :=
    List.countP_pos_iff.mpr ⟨e, hmem, by simp [he]⟩
  omega

/-- Witness for C8 (amended): one running callback, then two stopped
callbacks; the sink gets two cancellations, and the progress values are
those of the single running callback. -/
theorem c8_cancellation_per_stopped_callback_witness :
    (runMonitor ⟨0, 0, 0, 0, 0⟩
        [(true, MetricEvent.total 9), (false, MetricEvent.forwarded 1),
         (false, MetricEvent.processed 2)]).cancelRequests = 0 + 2 ∧
    1 ≤ (runMonitor ⟨0, 0, 0, 0, 0⟩
        [(true, MetricEvent.total 9), (false, MetricEvent.forwarded 1),
         (false, MetricEvent.processed 2)]).cancelRequests := by
  have h := c8_cancellation_per_stopped_callback ⟨0, 0, 0, 0, 0⟩
    [(true, MetricEvent.total 9), (false, MetricEvent.forwarded 1),
     (false, MetricEvent.processed 2)]
  refine ⟨?_, h.2.2 ⟨(false, MetricEvent.forwarded 1), by decide, rfl⟩⟩
  rw [h.1]
  decide

end OSN
